import Mathlib

/-!
Shallow embedding of the deploy-hlpages GitHub Action:
the API client (directory enumeration, per-file upload batching,
access validation), the upload orchestrator (FileUploader: create,
check, cancel), and the context loader.

Conventions of the embedding:
  - JS errors are modelled by JsError: a message plus the optional HTTP
    response status carried by axios errors (error.response.status);
    a fresh `new Error(msg)` carries no response status.
  - Filesystem paths are lists of components; the host path separator is
    an explicit parameter (the source runs on both '/' and '\\' hosts).
  - The filesystem is an inductive tree; a directory whose readdirSync
    call throws is modelled by the badDir constructor carrying the
    error message.
  - Network effects (axios calls) are oracles passed in as arguments:
    each upload's outcome is a function of the file and upload path.
-/

namespace DeployHLPages

set_option maxRecDepth 2048

/-- A JS error value: its message and, when the error came from an axios
HTTP failure, the response status (error.response.status). -/
structure JsError where
  message : String
  responseStatus : Option Nat := none
deriving Repr, DecidableEq

/-- FileRecord, as produced by getAllFiles: the absolute local path (as
components), the slash-normalized relative path, base name and size. -/
structure FileRecord where
  localPath : List String
  relativePath : String
  name : String
  size : Nat
deriving Repr, DecidableEq

/-- One entry of UploadResult.errors: {file: relativePath, error: message}. -/
structure ErrorEntry where
  file : String
  error : String
deriving Repr, DecidableEq

/-- UploadResult: {total, success, failed, errors} accumulated by
uploadDirectory. -/
structure UploadResult where
  total : Nat
  success : Nat
  failed : Nat
  errors : List ErrorEntry
deriving Repr, DecidableEq

mutual
/-- A filesystem tree. `badDir` models a directory on which readdirSync
throws (carrying the thrown error's message).  The entry list of a
directory is its own mutual inductive (FSForest) so that all recursion
over trees is structural. -/
inductive FSTree where
  | file (name : String) (size : Nat)
  | dir (name : String) (entries : FSForest)
  | badDir (name : String) (errMsg : String)
/-- The ordered entries of a directory. -/
inductive FSForest where
  | nil
  | cons (head : FSTree) (tail : FSForest)
end

/-- Render a component path with the host separator, as path.join does. -/
def renderPath (sep : Char) (components : List String) : String :=
  String.intercalate (String.mk [sep]) components

/-- relativePath.replace(backslash-regex, slash): every backslash character
becomes a forward slash. -/
def normalizeSlashes (s : String) : String :=
  String.mk (s.data.map (fun c => if c = '\\' then '/' else c))

/-- The recursive body of getAllFiles: walk a directory's entry list.
`base` is the absolute path of the walk's base directory, `rel` the
component path of the current directory relative to the base.  For
each item in order: a subdirectory is walked recursively in place and
its records inlined; a regular file yields one FileRecord whose
relativePath is path.relative rendered with the host separator and then
slash-normalized; a failing directory read throws, and the error
propagates out of the whole walk (the catch in getAllFiles rethrows). -/
def walkEntries (sep : Char) (base : List String) (rel : List String) :
    FSForest → Except JsError (List FileRecord)
  | FSForest.nil => .ok []
  | FSForest.cons (FSTree.file n sz) ts =>
      match walkEntries sep base rel ts with
      | .error e => .error e
      | .ok rest =>
          .ok ({ localPath := base ++ rel ++ [n],
                 relativePath := normalizeSlashes (renderPath sep (rel ++ [n])),
                 name := n,
                 size := sz } :: rest)
  | FSForest.cons (FSTree.dir n entries) ts =>
      match walkEntries sep base (rel ++ [n]) entries with
      | .error e => .error e
      | .ok sub =>
          match walkEntries sep base rel ts with
          | .error e => .error e
          | .ok rest => .ok (sub ++ rest)
  | FSForest.cons (FSTree.badDir _ msg) _ => .error { message := msg }

/-- getAllFiles(dirPath, basePath = dirPath): recursively walk the
directory at `base` (whose content is `root`), returning the flat list
of FileRecords; a read failure anywhere aborts the walk with the error.
Calling it on a non-directory throws readdirSync's ENOTDIR error. -/
def getAllFiles (sep : Char) (base : List String) (root : FSTree) :
    Except JsError (List FileRecord) :=
  match root with
  | FSTree.dir _ entries => walkEntries sep base [] entries
  | FSTree.badDir _ msg => .error { message := msg }
  | FSTree.file n _ => .error { message := "ENOTDIR: not a directory, scandir " ++ n }

/-- Split a character list at every forward slash: the slash-separated
segments of a path, as String.splitOn "/" computes them. -/
def splitSlash : List Char → List (List Char)
  | [] => [[]]
  | c :: cs =>
      match splitSlash cs with
      | [] => [[c]]
      | seg :: rest =>
          if c = '/' then [] :: seg :: rest else (c :: seg) :: rest

/-- path.dirname restricted to forward-slash relative paths (the only
inputs uploadDirectory feeds it: slash-normalized relativePaths): the
path with its last slash-separated segment dropped, or "." when there
is no parent. -/
def dirname (p : String) : String :=
  match (splitSlash p.data).dropLast with
  | [] => "."
  | parts => String.intercalate "/" (parts.map String.mk)

/-- The observable arguments of one uploadFile call issued by
uploadDirectory: the local file path and the uploadPath query/form value. -/
structure UploadCall where
  filePath : List String
  uploadPath : String
deriving Repr, DecidableEq

/-- The per-file upload loop of uploadDirectory.  For each file, in
enumeration order, it issues uploadFile with uploadPath =
path.dirname(file.relativePath); success increments success, a thrown
error is caught, increments failed and appends one
{file, error: message} entry; the loop never aborts early.  Also
records the calls issued, in order. -/
def uploadLoop (net : FileRecord → String → Except JsError Unit) :
    List FileRecord → UploadResult → List UploadCall →
    UploadResult × List UploadCall
  | [], acc, calls => (acc, calls)
  | f :: fs, acc, calls =>
      let up := dirname f.relativePath
      match net f up with
      | .ok _ =>
          uploadLoop net fs { acc with success := acc.success + 1 }
            (calls ++ [{ filePath := f.localPath, uploadPath := up }])
      | .error e =>
          uploadLoop net fs
            { acc with failed := acc.failed + 1,
                       errors := acc.errors ++ [{ file := f.relativePath, error := e.message }] }
            (calls ++ [{ filePath := f.localPath, uploadPath := up }])

/-- uploadDirectory: enumerate all files with getAllFiles (an enumeration
failure propagates), initialize {total: files.length, 0, 0, []}, run the
sequential per-file loop, return the aggregated result (paired here with
the uploadFile calls issued, for observation). -/
def uploadDirectory (sep : Char) (base : List String) (root : FSTree)
    (net : FileRecord → String → Except JsError Unit) :
    Except JsError (UploadResult × List UploadCall) :=
  match getAllFiles sep base root with
  | .error e => .error e
  | .ok files =>
      .ok (uploadLoop net files
            { total := files.length, success := 0, failed := 0, errors := [] } [])

/-- validateApiAccess: probe with listFiles (outcome passed as oracle);
on success return true; on failure with response status 401/403/404
throw a refined fresh error (no response status), otherwise rethrow the
original error. -/
def validateApiAccess (siteId : String) (probe : Except JsError Unit) :
    Except JsError Bool :=
  match probe with
  | .ok _ => .ok true
  | .error e =>
      match e.responseStatus with
      | none => .error e
      | some status =>
          if status = 401 then .error { message := "API Token无效或已过期" }
          else if status = 403 then .error { message := "API Token权限不足，需要website_hosting权限" }
          else if status = 404 then .error { message := "网站ID不存在: " ++ siteId }
          else .error e

/-! ## Context loader (src/internal/context.js) -/

/-- The action's invocation environment: workflow inputs (as read by
core.getInput) and process environment variables; absent values are none. -/
structure ActionEnv where
  inputs : String → Option String
  env : String → Option String

/-- core.getInput(name, {required}): an unset input reads as the empty
string; when required and empty, getInput throws naming the input. -/
def getInput (A : ActionEnv) (name : String) (required : Bool) :
    Except String String :=
  let val := (A.inputs name).getD ""
  if required ∧ val = "" then .error ("Input required and not supplied: " ++ name)
  else .ok val

/-- The record getRequiredVars returns.  String/Nat fields come from
getInput or literals and can never be JS-undefined; the three
environment-derived logging fields can be (modelled by Option). -/
structure ContextVars where
  apiToken : String
  siteId : String
  apiBaseUrl : String
  sourceDir : String
  targetPath : String
  timeout : Nat
  maxRetries : Nat
  workflowRun : Option String
  repositoryNwo : Option String
  buildVersion : Option String
deriving Repr, DecidableEq

/-- getRequiredVars: read the two required inputs (getInput throws if
absent), apply the defaults for api_base_url and source_dir via JS
or-else on the empty string, fix targetPath/timeout/maxRetries, and read
the three logging environment variables. -/
def getRequiredVars (A : ActionEnv) : Except String ContextVars :=
  match getInput A "api_token" true with
  | .error e => .error e
  | .ok apiToken =>
  match getInput A "site_id" true with
  | .error e => .error e
  | .ok siteId =>
  match getInput A "api_base_url" false with
  | .error e => .error e
  | .ok apiBaseUrlRaw =>
  match getInput A "source_dir" false with
  | .error e => .error e
  | .ok sourceDirRaw =>
  .ok { apiToken := apiToken,
        siteId := siteId,
        apiBaseUrl := if apiBaseUrlRaw = "" then "https://api.example.com" else apiBaseUrlRaw,
        sourceDir := if sourceDirRaw = "" then "./dist" else sourceDirRaw,
        targetPath := "/",
        timeout := 600000,
        maxRetries := 3,
        workflowRun := A.env "GITHUB_RUN_ID",
        repositoryNwo := A.env "GITHUB_REPOSITORY",
        buildVersion := A.env "GITHUB_SHA" }

/-- getContext: build the record, then iterate its fields in insertion
order (apiToken, siteId, apiBaseUrl, sourceDir, targetPath, timeout,
maxRetries, workflowRun, repositoryNwo, buildVersion) and throw
"FIELD is undefined. Cannot continue." at the first undefined one.  The
first seven fields are strings/numbers and never undefined, so only the
three environment-derived fields can fire, in that order. -/
def getContext (A : ActionEnv) : Except String ContextVars :=
  match getRequiredVars A with
  | .error e => .error e
  | .ok ctx =>
      if ctx.workflowRun = none then .error "workflowRun is undefined. Cannot continue."
      else if ctx.repositoryNwo = none then .error "repositoryNwo is undefined. Cannot continue."
      else if ctx.buildVersion = none then .error "buildVersion is undefined. Cannot continue."
      else .ok ctx

/-! ## Upload orchestrator (FileUploader) -/

/-- The uploadStatus enumeration keys. -/
inductive UploadStatus where
  | pending
  | uploading
  | success
  | failed
  | cancelled
deriving Repr, DecidableEq

/-- The Chinese display strings the uploadStatus map associates to each
status key (this.status holds these strings in the source). -/
def UploadStatus.text : UploadStatus → String
  | .pending => "等待上传"
  | .uploading => "正在上传"
  | .success => "上传成功"
  | .failed => "上传失败"
  | .cancelled => "上传已取消"

/-- MAX_TIMEOUT constant (milliseconds). -/
def MAX_TIMEOUT : Nat := 600000

/-- MAX_FILE_SIZE constant (declared in the source, never enforced). -/
def MAX_FILE_SIZE : Nat := 100 * 1024 * 1024

/-- The uploadInfo record built by create(): the spread UploadResult plus
id, startTime, endTime; cancel() later adds cancelled = true. -/
structure UploadInfo where
  result : UploadResult
  id : String
  startTime : Nat
  endTime : Nat
  cancelled : Bool := false
deriving Repr, DecidableEq

/-- The mutable fields of a FileUploader instance (plus the config it
copied from the context). -/
structure UploaderState where
  apiToken : String
  siteId : String
  apiBaseUrl : String
  sourceDir : String
  timeout : Nat
  maxRetries : Nat
  buildVersion : Option String
  uploadInfo : Option UploadInfo
  startTime : Option Nat
  status : UploadStatus
deriving Repr, DecidableEq

/-- The FileUploader constructor: copy config from the context (with JS
or-else fallbacks on timeout and maxRetries), start with no uploadInfo,
no startTime, status pending. -/
def FileUploader.init (ctx : ContextVars) : UploaderState :=
  { apiToken := ctx.apiToken,
    siteId := ctx.siteId,
    apiBaseUrl := ctx.apiBaseUrl,
    sourceDir := ctx.sourceDir,
    timeout := if ctx.timeout = 0 then MAX_TIMEOUT else ctx.timeout,
    maxRetries := if ctx.maxRetries = 0 then 3 else ctx.maxRetries,
    buildVersion := ctx.buildVersion,
    uploadInfo := none,
    startTime := none,
    status := UploadStatus.pending }

/-- create()'s catch-block error translation: an error carrying an HTTP
response status is replaced by a fresh error (no response) whose message
is the base text plus a status-specific suffix (400/401/403/404/５xx;
any other status keeps just the base text); an error without a response
is rethrown unchanged. -/
def translateError (siteId : String) (e : JsError) : JsError :=
  match e.responseStatus with
  | none => e
  | some st =>
      let base := "文件上传失败 (状态码: " ++ toString st ++ ")"
      if st = 400 then { message := base ++ " 错误详情: " ++ e.message }
      else if st = 401 then { message := base ++ " API Token无效或已过期" }
      else if st = 403 then { message := base ++ " API Token权限不足，需要website_hosting权限" }
      else if st = 404 then { message := base ++ " 网站ID不存在: " ++ siteId }
      else if 500 ≤ st then { message := base ++ " 服务器错误，请稍后重试" }
      else { message := base }

/-- The external facts create() consults: the host separator, the
resolved absolute source directory and its existence/directory-ness, the
listFiles probe outcome, the directory tree, the per-file upload
outcomes, and the clock readings taken at the start and end of the
upload (nowId is the Date.now() used for the id fallback). -/
structure CreateEnv where
  sep : Char
  resolvedBase : List String
  sourceDirExists : Bool
  sourceDirIsDir : Bool
  probe : Except JsError Unit
  tree : FSTree
  net : FileRecord → String → Except JsError Unit
  timeStart : Nat
  timeEnd : Nat
  nowId : Nat

/-- create(): clamp the timeout to MAX_TIMEOUT (outside the try); then,
inside the try: validate config fields (distinct message per missing
field), check the resolved source directory exists and is a directory,
run validateApiAccess, set status uploading and record startTime, run
uploadDirectory, build uploadInfo (result spread plus id = buildVersion
or the timestamp fallback, startTime, endTime), and set status success
when failed == 0, else failed.  Any error thrown inside the try sets
status failed and is re-raised through the catch's translation. -/
def FileUploader.create (s0 : UploaderState) (env : CreateEnv) :
    UploaderState × Except JsError UploadInfo :=
  let s := if MAX_TIMEOUT < s0.timeout then { s0 with timeout := MAX_TIMEOUT } else s0
  if s.apiToken = "" then
    ({ s with status := UploadStatus.failed },
     .error (translateError s.siteId
       { message := "API Token未配置，请设置api_token参数或API_TOKEN环境变量" }))
  else if s.siteId = "" then
    ({ s with status := UploadStatus.failed },
     .error (translateError s.siteId
       { message := "网站ID未配置，请设置site_id参数或SITE_ID环境变量" }))
  else if s.apiBaseUrl = "" then
    ({ s with status := UploadStatus.failed },
     .error (translateError s.siteId
       { message := "API基础URL未配置，请设置api_base_url参数或API_BASE_URL环境变量" }))
  else if !env.sourceDirExists then
    ({ s with status := UploadStatus.failed },
     .error (translateError s.siteId
       { message := "源目录不存在: " ++ renderPath env.sep env.resolvedBase }))
  else if !env.sourceDirIsDir then
    ({ s with status := UploadStatus.failed },
     .error (translateError s.siteId
       { message := "源路径不是目录: " ++ renderPath env.sep env.resolvedBase }))
  else
    match validateApiAccess s.siteId env.probe with
    | .error e =>
        ({ s with status := UploadStatus.failed }, .error (translateError s.siteId e))
    | .ok _ =>
        let s1 := { s with status := UploadStatus.uploading,
                           startTime := some env.timeStart }
        match uploadDirectory env.sep env.resolvedBase env.tree env.net with
        | .error e =>
            ({ s1 with status := UploadStatus.failed },
             .error (translateError s1.siteId e))
        | .ok (res, _calls) =>
            let info : UploadInfo :=
              { result := res,
                id := match s1.buildVersion with
                      | some v => if v = "" then toString env.nowId else v
                      | none => toString env.nowId,
                startTime := env.timeStart,
                endTime := env.timeEnd,
                cancelled := false }
            ({ s1 with uploadInfo := some info,
                       status := if res.failed = 0 then UploadStatus.success
                                 else UploadStatus.failed },
             .ok info)

/-- The observable log/output actions the orchestrator performs through
the actions toolkit. -/
inductive LogEvent where
  | info (msg : String)
  | warning (msg : String)
  | setFailed (msg : String)
  | setOutput (key value : String)
deriving Repr, DecidableEq

/-- Renders a double-quoted JSON string (the serialized fields contain no
characters needing escapes in the scenarios modelled). -/
def jsonStr (s : String) : String := "\"" ++ s ++ "\""

/-- JSON.stringify of one errors entry. -/
def serializeErrorEntry (e : ErrorEntry) : String :=
  "\x7b\"file\":" ++ jsonStr e.file ++ ",\"error\":" ++ jsonStr e.error ++ "\x7d"

/-- JSON.stringify of the uploadInfo record, keys in insertion order
(the spread result's total/success/failed/errors, then id, startTime,
endTime, and cancelled only once cancel() has added it). -/
def serializeUploadInfo (i : UploadInfo) : String :=
  "\x7b\"total\":" ++ toString i.result.total ++
  ",\"success\":" ++ toString i.result.success ++
  ",\"failed\":" ++ toString i.result.failed ++
  ",\"errors\":[" ++ String.intercalate "," (i.result.errors.map serializeErrorEntry) ++ "]" ++
  ",\"id\":" ++ jsonStr i.id ++
  ",\"startTime\":" ++ toString i.startTime ++
  ",\"endTime\":" ++ toString i.endTime ++
  (if i.cancelled then ",\"cancelled\":true" else "") ++ "\x7d"

/-- The duration block at the end of check(): when this.startTime and
this.uploadInfo.endTime are both truthy (nonzero numbers), log the
rounded duration in seconds and output the millisecond difference. -/
def durationEvents (s : UploaderState) (info : UploadInfo) : List LogEvent :=
  match s.startTime with
  | none => []
  | some st =>
      if st ≠ 0 ∧ info.endTime ≠ 0 then
        let d : Int := (info.endTime : Int) - (st : Int)
        [LogEvent.info ("上传耗时: " ++ toString ((d + 500).fdiv 1000) ++ " 秒"),
         LogEvent.setOutput "duration" (toString d)]
      else []

/-- check(): with no uploadInfo, a single hard failure.  Otherwise, after
the status-check info line, switch on status: success emits the success
outputs and, when failed > 0, the warning block enumerating the failed
files; failed and cancelled emit a hard failure and the status output;
any other status logs and outputs its display string.  The duration
block follows the switch. -/
def FileUploader.check (s : UploaderState) : List LogEvent :=
  match s.uploadInfo with
  | none => [LogEvent.setFailed "上传未开始或上传信息丢失"]
  | some info =>
      LogEvent.info "检查上传状态..." ::
      ((match s.status with
        | UploadStatus.success =>
            [LogEvent.info "文件上传成功!",
             LogEvent.setOutput "status" "success",
             LogEvent.setOutput "upload_result" (serializeUploadInfo info),
             LogEvent.setOutput "total_files" (toString info.result.total),
             LogEvent.setOutput "success_files" (toString info.result.success),
             LogEvent.setOutput "failed_files" (toString info.result.failed)] ++
            (if info.result.failed > 0 then
               LogEvent.warning ("部分文件上传失败: " ++ toString info.result.failed ++
                 "/" ++ toString info.result.total) ::
               (if info.result.errors.length > 0 then
                  LogEvent.warning "失败文件列表:" ::
                  info.result.errors.map
                    (fun e => LogEvent.warning ("  - " ++ e.file ++ ": " ++ e.error))
                else [])
             else [])
        | UploadStatus.failed =>
            [LogEvent.setFailed "文件上传失败",
             LogEvent.setOutput "status" "failed"]
        | UploadStatus.cancelled =>
            [LogEvent.setFailed "文件上传已取消",
             LogEvent.setOutput "status" "cancelled"]
        | st =>
            [LogEvent.info ("当前状态: " ++ st.text),
             LogEvent.setOutput "status" st.text]) ++
       durationEvents s info)

/-- cancel(): a no-op when uploadInfo is null or the status is already
success or failed; otherwise set status cancelled and, on the (non-null)
uploadInfo, set cancelled = true and endTime = Date.now(). -/
def FileUploader.cancel (s : UploaderState) (now : Nat) : UploaderState :=
  if s.uploadInfo = none ∨ s.status = UploadStatus.success ∨
      s.status = UploadStatus.failed then s
  else
    { s with status := UploadStatus.cancelled,
             uploadInfo := s.uploadInfo.map
               (fun i => { i with cancelled := true, endTime := now }) }

/-! ## Spec-side helpers for stating and proving the claims -/

/-- Number of regular-file nodes at any depth in an entry list. -/
def countFilesList : FSForest → Nat
  | FSForest.nil => 0
  | FSForest.cons (FSTree.file _ _) ts => 1 + countFilesList ts
  | FSForest.cons (FSTree.dir _ entries) ts => countFilesList entries + countFilesList ts
  | FSForest.cons (FSTree.badDir _ _) ts => countFilesList ts

/-- True when no directory anywhere in the entry list fails to read. -/
def noBadDirList : FSForest → Bool
  | FSForest.nil => true
  | FSForest.cons (FSTree.file _ _) ts => noBadDirList ts
  | FSForest.cons (FSTree.dir _ entries) ts => noBadDirList entries && noBadDirList ts
  | FSForest.cons (FSTree.badDir _ _) _ => false

/-- Modelled from the spec for comparison with the walk: the bare
flattening of an entry list into (relative component path, base name,
size) triples, one triple per regular-file node at any depth, in
traversal order, with no entry for any directory. -/
def specFiles (rel : List String) : FSForest → List (List String × String × Nat)
  | FSForest.nil => []
  | FSForest.cons (FSTree.file n sz) ts => (rel ++ [n], n, sz) :: specFiles rel ts
  | FSForest.cons (FSTree.dir n entries) ts => specFiles (rel ++ [n]) entries ++ specFiles rel ts
  | FSForest.cons (FSTree.badDir _ _) ts => specFiles rel ts

/-- The FileRecord that a flattened (components, name, size) triple
corresponds to under a given base path and host separator. -/
def recordOf (sep : Char) (base : List String) :
    List String × String × Nat → FileRecord
  | (comps, n, sz) =>
      { localPath := base ++ comps,
        relativePath := normalizeSlashes (renderPath sep comps),
        name := n,
        size := sz }

/-- The uploadFile call that uploadDirectory issues for a given file:
its local path and uploadPath = path.dirname(relativePath). -/
def mkCall (f : FileRecord) : UploadCall :=
  { filePath := f.localPath, uploadPath := dirname f.relativePath }

/-- The errors entry uploadDirectory records for a file, when its upload
fails: none on success, the {file, error} pair on failure. -/
def failEntry (net : FileRecord → String → Except JsError Unit)
    (f : FileRecord) : Option ErrorEntry :=
  match net f (dirname f.relativePath) with
  | .ok _ => none
  | .error e => some { file := f.relativePath, error := e.message }

/-- Bool predicate: the upload of this file succeeds. -/
def uploadOk (net : FileRecord → String → Except JsError Unit)
    (f : FileRecord) : Bool :=
  (net f (dirname f.relativePath)).isOk

/-- Discriminator for warning events. -/
def LogEvent.isWarning : LogEvent → Bool
  | .warning _ => true
  | _ => false

/-! ## Concrete fixtures for evaluating the model -/

/-- The spec's two-file scenario: index.html (10 bytes) at the root and
css/style.css (20 bytes) in a subdirectory. -/
def exampleEntries : FSForest :=
  FSForest.cons (FSTree.file "index.html" 10)
    (FSForest.cons
      (FSTree.dir "css" (FSForest.cons (FSTree.file "style.css" 20) FSForest.nil))
      FSForest.nil)

/-- The source directory holding the two-file scenario. -/
def exampleTree : FSTree := FSTree.dir "dist" exampleEntries

/-- The resolved absolute path of the source directory. -/
def exampleBase : List String := ["", "home", "user", "dist"]

/-- A network oracle on which every upload succeeds. -/
def netAllOk : FileRecord → String → Except JsError Unit := fun _ _ => .ok ()

/-- A network oracle on which css/style.css fails with a simulated 500
error and everything else succeeds. -/
def netFailCss : FileRecord → String → Except JsError Unit := fun f _ =>
  if f.relativePath = "css/style.css" then
    .error { message := "Request failed with status code 500", responseStatus := some 500 }
  else .ok ()

/-- The FileRecords getAllFiles produces for the two-file scenario. -/
def exampleFiles : List FileRecord :=
  [{ localPath := exampleBase ++ ["index.html"], relativePath := "index.html",
     name := "index.html", size := 10 },
   { localPath := exampleBase ++ ["css", "style.css"], relativePath := "css/style.css",
     name := "style.css", size := 20 }]

/-- A freshly constructed uploader: pending, no uploadInfo. -/
def examplePendingState : UploaderState :=
  { apiToken := "tok", siteId := "site-1", apiBaseUrl := "https://api.example.com",
    sourceDir := "./dist", timeout := 600000, maxRetries := 3,
    buildVersion := some "abc123", uploadInfo := none, startTime := none,
    status := UploadStatus.pending }

/-- An uploadInfo as built after a clean two-file upload. -/
def exampleCreatedInfo : UploadInfo :=
  { result := { total := 2, success := 2, failed := 0, errors := [] },
    id := "abc123", startTime := 1000, endTime := 2000, cancelled := false }

/-- The uploader right after a clean create() pass. -/
def exampleCreatedState : UploaderState :=
  { examplePendingState with
    status := UploadStatus.success,
    startTime := some 1000, uploadInfo := some exampleCreatedInfo }

/-- An uploadInfo carrying one failed file (the spec's 500-error
scenario). -/
def exampleFailedInfo : UploadInfo :=
  { result := { total := 2, success := 1, failed := 1,
                errors := [{ file := "css/style.css",
                             error := "Request failed with status code 500" }] },
    id := "abc123", startTime := 1000, endTime := 2000, cancelled := false }

/-- The uploader after a create() pass that recorded one failed file. -/
def exampleFailedState : UploaderState :=
  { examplePendingState with
    status := UploadStatus.failed,
    startTime := some 1000, uploadInfo := some exampleFailedInfo }

/-- A state mid-upload that does carry an uploadInfo record. -/
def exampleUploadingInfo : UploadInfo :=
  { result := { total := 1, success := 0, failed := 0, errors := [] },
    id := "abc123", startTime := 500, endTime := 900, cancelled := false }

/-- An uploader in the uploading state with an uploadInfo present. -/
def exampleUploadingState : UploaderState :=
  { examplePendingState with
    status := UploadStatus.uploading,
    startTime := some 500, uploadInfo := some exampleUploadingInfo }

/-- A create() environment in which everything succeeds. -/
def exampleEnvOk : CreateEnv :=
  { sep := '/', resolvedBase := exampleBase, sourceDirExists := true,
    sourceDirIsDir := true, probe := .ok (), tree := exampleTree,
    net := netAllOk, timeStart := 1000, timeEnd := 2000, nowId := 3000 }

/-- A create() environment whose access probe fails with a 500. -/
def exampleEnvBadProbe : CreateEnv :=
  { exampleEnvOk with
    probe := .error { message := "Request failed with status code 500",
                      responseStatus := some 500 } }

/-- An action environment with both required inputs set, no optional
inputs, and all three logging environment variables present. -/
def exampleActionEnv : ActionEnv :=
  { inputs := fun n =>
      if n = "api_token" then some "tok"
      else if n = "site_id" then some "site-1"
      else none,
    env := fun n =>
      if n = "GITHUB_RUN_ID" then some "123"
      else if n = "GITHUB_REPOSITORY" then some "owner/repo"
      else if n = "GITHUB_SHA" then some "abc123"
      else none }

/-- The same action environment with GITHUB_SHA missing. -/
def exampleActionEnvNoSha : ActionEnv :=
  { exampleActionEnv with
    env := fun n =>
      if n = "GITHUB_RUN_ID" then some "123"
      else if n = "GITHUB_REPOSITORY" then some "owner/repo"
      else none }

/-! ## Shared helper lemmas -/

/-- Slash normalization removes every backslash. -/
theorem normalizeSlashes_no_backslash (s : String) :
    ∀ c ∈ (normalizeSlashes s).data, c ≠ '\\' := by
  intro c hc
  have hm : c ∈ s.data.map (fun c => if c = '\\' then '/' else c) := hc
  rw [List.mem_map] at hm
  obtain ⟨c0, _, hc0⟩ := hm
  subst hc0
  by_cases h : c0 = '\\'
  · simp [h]
  · simp [h]

/-- Strings with different first characters differ. -/
theorem ne_of_front_ne {a b : String} (h : a.front ≠ b.front) : a ≠ b :=
  fun e => h (by rw [e])

/-- The duration block emits only info and output events. -/
theorem durationEvents_not_warning (s : UploaderState) (info : UploadInfo) :
    (durationEvents s info).all (fun ev => !ev.isWarning) = true := by
  rw [durationEvents]
  cases h : s.startTime with
  | none => rfl
  | some st =>
      split
      all_goals try split
      all_goals rfl

/-! ## Lemmas about the directory walk -/

/-- The flattening has one triple per regular-file node. -/
theorem specFiles_length : ∀ (rel : List String) (ts : FSForest),
    (specFiles rel ts).length = countFilesList ts
  | _, FSForest.nil => by simp [specFiles, countFilesList]
  | rel, FSForest.cons (FSTree.file n sz) ts => by
      simp [specFiles, countFilesList, specFiles_length rel ts]; omega
  | rel, FSForest.cons (FSTree.dir n entries) ts => by
      simp [specFiles, countFilesList, specFiles_length (rel ++ [n]) entries,
        specFiles_length rel ts]
  | rel, FSForest.cons (FSTree.badDir n m) ts => by
      simp [specFiles, countFilesList, specFiles_length rel ts]

/-- On an entry list with no failing directory read, the walk succeeds
and returns exactly the flattened file records, in traversal order. -/
theorem walkEntries_eq_specFiles (sep : Char) (base : List String) :
    ∀ (rel : List String) (ts : FSForest), noBadDirList ts = true →
      walkEntries sep base rel ts = .ok ((specFiles rel ts).map (recordOf sep base))
  | _, FSForest.nil, _ => by simp [walkEntries, specFiles]
  | rel, FSForest.cons (FSTree.file n sz) ts, h => by
      have ih := walkEntries_eq_specFiles sep base rel ts
        (by simpa [noBadDirList] using h)
      simp [walkEntries, specFiles, recordOf, ih]
  | rel, FSForest.cons (FSTree.dir n entries) ts, h => by
      have h2 : noBadDirList entries = true ∧ noBadDirList ts = true := by
        simpa [noBadDirList, Bool.and_eq_true] using h
      have ih1 := walkEntries_eq_specFiles sep base (rel ++ [n]) entries h2.1
      have ih2 := walkEntries_eq_specFiles sep base rel ts h2.2
      simp [walkEntries, specFiles, ih1, ih2]
  | rel, FSForest.cons (FSTree.badDir n msg) ts, h => by
      simp [noBadDirList] at h

/-- A failing directory read anywhere makes the whole walk throw. -/
theorem walkEntries_error_of_badDir (sep : Char) (base : List String) :
    ∀ (rel : List String) (ts : FSForest), noBadDirList ts = false →
      ∃ e, walkEntries sep base rel ts = .error e
  | _, FSForest.nil, h => by simp [noBadDirList] at h
  | rel, FSForest.cons (FSTree.file n sz) ts, h => by
      obtain ⟨e, he⟩ := walkEntries_error_of_badDir sep base rel ts
        (by simpa [noBadDirList] using h)
      exact ⟨e, by simp [walkEntries, he]⟩
  | rel, FSForest.cons (FSTree.dir n entries) ts, h => by
      rw [noBadDirList, Bool.and_eq_false_iff] at h
      cases hsub : walkEntries sep base (rel ++ [n]) entries with
      | error e => exact ⟨e, by simp [walkEntries, hsub]⟩
      | ok sub =>
          have hts : noBadDirList ts = false := by
            rcases h with h | h
            · obtain ⟨e, he⟩ := walkEntries_error_of_badDir sep base (rel ++ [n]) entries h
              rw [he] at hsub; exact absurd hsub (by simp)
            · exact h
          obtain ⟨e, he⟩ := walkEntries_error_of_badDir sep base rel ts hts
          exact ⟨e, by simp [walkEntries, hsub, he]⟩
  | rel, FSForest.cons (FSTree.badDir n msg) ts, _ =>
      ⟨{ message := msg }, rfl⟩

/-! ## Lemmas about the upload loop -/

/-- Full characterization of the per-file loop: starting from an
accumulator, it adds one success per succeeding file, one failure and
one errors entry per failing file, keeps total unchanged, and issues
exactly one uploadFile call per file, in order. -/
theorem uploadLoop_eq (net : FileRecord → String → Except JsError Unit) :
    ∀ (files : List FileRecord) (acc : UploadResult) (calls : List UploadCall),
      uploadLoop net files acc calls =
        ({ total := acc.total,
           success := acc.success + files.countP (uploadOk net),
           failed := acc.failed + (files.filterMap (failEntry net)).length,
           errors := acc.errors ++ files.filterMap (failEntry net) },
         calls ++ files.map mkCall)
  | [], acc, calls => by simp [uploadLoop]
  | f :: fs, acc, calls => by
      cases hn : net f (dirname f.relativePath) with
      | ok u =>
          have ih := uploadLoop_eq net fs { acc with success := acc.success + 1 }
            (calls ++ [mkCall f])
          simp only [uploadLoop, hn, mkCall] at ih ⊢
          rw [ih]
          simp [List.countP_cons, uploadOk, hn, failEntry, Except.isOk, Except.toBool,
            Prod.mk.injEq, UploadResult.mk.injEq, List.append_assoc]
          exact ⟨by omega, rfl⟩
      | error e =>
          have ih := uploadLoop_eq net fs
            { acc with failed := acc.failed + 1,
                       errors := acc.errors ++ [{ file := f.relativePath, error := e.message }] }
            (calls ++ [mkCall f])
          simp only [uploadLoop, hn, mkCall] at ih ⊢
          rw [ih]
          simp [List.countP_cons, uploadOk, hn, failEntry, Except.isOk, Except.toBool,
            Prod.mk.injEq, UploadResult.mk.injEq, List.append_assoc]
          exact ⟨by omega, rfl⟩

/-- Each file either succeeds or contributes exactly one errors entry. -/
theorem countP_add_filterMap_length (net : FileRecord → String → Except JsError Unit) :
    ∀ (files : List FileRecord),
      files.countP (uploadOk net) + (files.filterMap (failEntry net)).length =
        files.length
  | [] => by simp
  | f :: fs => by
      have ih := countP_add_filterMap_length net fs
      cases hn : net f (dirname f.relativePath) with
      | ok u =>
          simp [List.countP_cons, uploadOk, failEntry, hn, Except.isOk, Except.toBool]
          omega
      | error e =>
          simp [List.countP_cons, uploadOk, failEntry, hn, Except.isOk, Except.toBool]
          omega

/-! ## Claims -/

/-- C1: for a readable directory containing N regular files at any
depth, uploadDirectory returns an UploadResult with total = N,
success + failed = total, and errors.length = failed. -/
theorem uploadDirectory_accounting (sep : Char) (base : List String)
    (dname : String) (entries : FSForest)
    (net : FileRecord → String → Except JsError Unit)
    (h : noBadDirList entries = true) :
    ∃ res calls,
      uploadDirectory sep base (FSTree.dir dname entries) net = .ok (res, calls) ∧
      res.total = countFilesList entries ∧
      res.success + res.failed = res.total ∧
      res.errors.length = res.failed := by
  have hw := walkEntries_eq_specFiles sep base [] entries h
  have hfiles : getAllFiles sep base (FSTree.dir dname entries) =
      .ok ((specFiles [] entries).map (recordOf sep base)) := by
    simp [getAllFiles, hw]
  set files := (specFiles [] entries).map (recordOf sep base) with hfdef
  have hloop := uploadLoop_eq net files
    { total := files.length, success := 0, failed := 0, errors := [] } []
  refine ⟨{ total := files.length,
            success := files.countP (uploadOk net),
            failed := (files.filterMap (failEntry net)).length,
            errors := files.filterMap (failEntry net) },
          files.map mkCall, ?_, ?_, ?_, ?_⟩
  · simp [uploadDirectory, hfiles, hloop]
  · rw [hfdef]
    simp [specFiles_length]
  · exact countP_add_filterMap_length net files
  · rfl

/-- C1 witness: the accounting invariants on the concrete two-file tree
with the css upload failing. -/
theorem uploadDirectory_accounting_witness :
    ∃ res calls,
      uploadDirectory '/' exampleBase (FSTree.dir "dist" exampleEntries) netFailCss =
        .ok (res, calls) ∧
      res.total = countFilesList exampleEntries ∧
      res.success + res.failed = res.total ∧
      res.errors.length = res.failed :=
  uploadDirectory_accounting '/' exampleBase "dist" exampleEntries netFailCss rfl

/-- C2 counterexample: in the two-file scenario the uploadPath argument
for index.html is "." (path.dirname of "index.html"), not the "" the
claim asserts; the issued uploadPath list is [".", "css"], not
["", "css"]. -/
theorem uploadDirectory_scenario_counterexample :
    (uploadDirectory '/' exampleBase exampleTree netAllOk).toOption.map
        (fun p => p.2.map UploadCall.uploadPath) = some [".", "css"] ∧
    some [".", "css"] ≠ some ["", "css"] :=
  ⟨rfl, by decide⟩

/-- C2 (amended): the two-file scenario produces the two FileRecords
with relativePath "index.html" and "css/style.css", issues exactly two
uploadFile calls with uploadPath "." (the parent of a root-level file,
as path.dirname returns) and "css", and returns
{total: 2, success: 2, failed: 0, errors: []} when both succeed. -/
theorem uploadDirectory_scenario_amended :
    getAllFiles '/' exampleBase exampleTree = .ok exampleFiles ∧
    uploadDirectory '/' exampleBase exampleTree netAllOk =
      .ok ({ total := 2, success := 2, failed := 0, errors := [] },
           [{ filePath := exampleBase ++ ["index.html"], uploadPath := "." },
            { filePath := exampleBase ++ ["css", "style.css"], uploadPath := "css" }]) :=
  ⟨rfl, rfl⟩

/-- C6: given the enumerated file list, uploadDirectory issues exactly
one uploadFile call per file in order (a failure never aborts the
remaining uploads), and the errors list holds exactly one
{file, error message} entry per failing file; failed counts them. -/
theorem uploadDirectory_per_file_isolation (sep : Char) (base : List String)
    (root : FSTree) (net : FileRecord → String → Except JsError Unit)
    (files : List FileRecord)
    (h : getAllFiles sep base root = .ok files) :
    uploadDirectory sep base root net =
      .ok ({ total := files.length,
             success := files.countP (uploadOk net),
             failed := (files.filterMap (failEntry net)).length,
             errors := files.filterMap (failEntry net) },
           files.map mkCall) := by
  have hloop := uploadLoop_eq net files
    { total := files.length, success := 0, failed := 0, errors := [] } []
  simp [uploadDirectory, h, hloop]

/-- C6 witness: the characterization on the two-file tree where the css
upload fails: both files are still attempted and css/style.css appears
exactly once in errors. -/
theorem uploadDirectory_per_file_isolation_witness :
    uploadDirectory '/' exampleBase exampleTree netFailCss =
      .ok ({ total := exampleFiles.length,
             success := exampleFiles.countP (uploadOk netFailCss),
             failed := (exampleFiles.filterMap (failEntry netFailCss)).length,
             errors := exampleFiles.filterMap (failEntry netFailCss) },
           exampleFiles.map mkCall) :=
  uploadDirectory_per_file_isolation '/' exampleBase exampleTree netFailCss
    exampleFiles rfl

/-- C8: getAllFiles on an empty directory returns the empty sequence; on
a readable tree it returns exactly the flattening of the tree's regular
files (each file node contributing exactly one record, directories
none, in traversal order); a failing directory read anywhere aborts the
walk with an error and no partial result. -/
theorem getAllFiles_enumeration (sep : Char) (base : List String)
    (dname : String) (entries : FSForest) :
    (entries = FSForest.nil → getAllFiles sep base (FSTree.dir dname entries) = .ok []) ∧
    (noBadDirList entries = true →
       getAllFiles sep base (FSTree.dir dname entries) =
         .ok ((specFiles [] entries).map (recordOf sep base))) ∧
    (noBadDirList entries = false →
       ∃ e, getAllFiles sep base (FSTree.dir dname entries) = .error e) := by
  refine ⟨?_, ?_, ?_⟩
  · rintro rfl
    simp [getAllFiles, walkEntries]
  · intro h
    simp [getAllFiles, walkEntries_eq_specFiles sep base [] entries h]
  · intro h
    obtain ⟨e, he⟩ := walkEntries_error_of_badDir sep base [] entries h
    exact ⟨e, by simp [getAllFiles, he]⟩

/-- C8 witness: the empty directory, the two-file tree, and a tree with
an unreadable subdirectory. -/
theorem getAllFiles_enumeration_witness :
    getAllFiles '/' exampleBase (FSTree.dir "dist" FSForest.nil) = .ok [] ∧
    getAllFiles '/' exampleBase (FSTree.dir "dist" exampleEntries) =
      .ok ((specFiles [] exampleEntries).map (recordOf '/' exampleBase)) ∧
    (∃ e, getAllFiles '/' exampleBase
        (FSTree.dir "dist"
          (FSForest.cons (FSTree.badDir "secret" "EACCES: permission denied") FSForest.nil)) =
      .error e) :=
  ⟨(getAllFiles_enumeration '/' exampleBase "dist" FSForest.nil).1 rfl,
   (getAllFiles_enumeration '/' exampleBase "dist" exampleEntries).2.1 rfl,
   (getAllFiles_enumeration '/' exampleBase "dist"
     (FSForest.cons (FSTree.badDir "secret" "EACCES: permission denied") FSForest.nil)).2.2 rfl⟩

/-- C9: every FileRecord getAllFiles returns has a relativePath free of
backslashes, whatever the host separator is. -/
theorem getAllFiles_relativePath_slash (sep : Char) (base : List String)
    (root : FSTree) (recs : List FileRecord)
    (h : getAllFiles sep base root = .ok recs) :
    ∀ r ∈ recs, ∀ c ∈ r.relativePath.data, c ≠ '\\' := by
  cases root with
  | file n sz => simp [getAllFiles] at h
  | badDir n m => simp [getAllFiles] at h
  | dir n entries =>
      simp only [getAllFiles] at h
      by_cases hb : noBadDirList entries = true
      · rw [walkEntries_eq_specFiles sep base [] entries hb] at h
        have h2 : (specFiles [] entries).map (recordOf sep base) = recs := by
          simpa using h
        subst h2
        intro r hr
        rw [List.mem_map] at hr
        obtain ⟨⟨comps, nm, sz⟩, _, rfl⟩ := hr
        exact normalizeSlashes_no_backslash (renderPath sep comps)
      · obtain ⟨e, he⟩ := walkEntries_error_of_badDir sep base [] entries
          (by simpa using hb)
        rw [he] at h
        exact absurd h (by simp)

/-- C9 witness: on a backslash-separator host, the nested file's
relativePath still contains no backslash. -/
theorem getAllFiles_relativePath_slash_witness :
    exampleFiles.all (fun r => r.relativePath.data.all (fun c => c != '\\')) = true := by
  have h := getAllFiles_relativePath_slash '\\' exampleBase exampleTree exampleFiles rfl
  rw [List.all_eq_true]
  intro r hr
  rw [List.all_eq_true]
  intro c hc
  simpa using h r hr c hc

/-- C3 counterexample: in the pending state no uploadInfo record exists
yet, so cancel() is a no-op: the status stays pending rather than being
forced to cancelled. -/
theorem cancel_pending_noop_counterexample :
    FileUploader.cancel examplePendingState 1234 = examplePendingState ∧
    examplePendingState.status = UploadStatus.pending ∧
    (FileUploader.cancel examplePendingState 1234).status ≠ UploadStatus.cancelled := by
  decide

/-- C3 (amended): for a non-terminal state (pending or uploading) that
does carry an uploadInfo record, cancel() forces status cancelled and
stamps endTime (plus the cancelled flag) on the record; with no record,
cancel() is a no-op as the guard returns early. -/
theorem cancel_nonterminal_with_record (s : UploaderState) (now : Nat)
    (info : UploadInfo) (hinfo : s.uploadInfo = some info)
    (hst : s.status = UploadStatus.pending ∨ s.status = UploadStatus.uploading) :
    (FileUploader.cancel s now).status = UploadStatus.cancelled ∧
    (FileUploader.cancel s now).uploadInfo =
      some { info with cancelled := true, endTime := now } := by
  rw [FileUploader.cancel]
  rcases hst with h | h <;> simp [hinfo, h]

/-- C3 witness: cancelling the uploading-with-record state. -/
theorem cancel_nonterminal_with_record_witness :
    (FileUploader.cancel exampleUploadingState 1234).status = UploadStatus.cancelled ∧
    (FileUploader.cancel exampleUploadingState 1234).uploadInfo =
      some { exampleUploadingInfo with cancelled := true, endTime := 1234 } :=
  cancel_nonterminal_with_record exampleUploadingState 1234 exampleUploadingInfo rfl
    (Or.inr rfl)

/-- C4 counterexample: with status failed and one failed file recorded
in the result, check() emits the hard failure but no warning whatsoever:
the failed-file enumeration never runs in the failed branch. -/
theorem check_failed_no_enumeration_counterexample :
    LogEvent.setFailed "文件上传失败" ∈ FileUploader.check exampleFailedState ∧
    (FileUploader.check exampleFailedState).all (fun ev => !ev.isWarning) = true := by
  decide

/-- C4 (amended): when the pass recorded failed files (status failed),
check() reports the hard failure and the failed status output, but does
not enumerate the failed files: no warning is emitted at all (the
enumeration exists only in the success branch). -/
theorem check_failed_amended (s : UploaderState) (info : UploadInfo)
    (h1 : s.uploadInfo = some info) (h2 : s.status = UploadStatus.failed) :
    FileUploader.check s =
      LogEvent.info "检查上传状态..." ::
        ([LogEvent.setFailed "文件上传失败", LogEvent.setOutput "status" "failed"] ++
         durationEvents s info) ∧
    (FileUploader.check s).all (fun ev => !ev.isWarning) = true := by
  have hc : FileUploader.check s =
      LogEvent.info "检查上传状态..." ::
        ([LogEvent.setFailed "文件上传失败", LogEvent.setOutput "status" "failed"] ++
         durationEvents s info) := by
    simp [FileUploader.check, h1, h2]
  refine ⟨hc, ?_⟩
  rw [hc]
  simp only [List.all_cons, List.all_append, Bool.and_eq_true]
  repeat' apply And.intro
  all_goals first
    | rfl
    | exact durationEvents_not_warning s info

/-- C4 witness: the concrete failed state with one recorded error. -/
theorem check_failed_amended_witness :
    FileUploader.check exampleFailedState =
      LogEvent.info "检查上传状态..." ::
        ([LogEvent.setFailed "文件上传失败", LogEvent.setOutput "status" "failed"] ++
         durationEvents exampleFailedState exampleFailedInfo) ∧
    (FileUploader.check exampleFailedState).all (fun ev => !ev.isWarning) = true :=
  check_failed_amended exampleFailedState exampleFailedInfo rfl rfl

/-- C5: after create(), on the ok path the final status is success
exactly when the result has zero failures (and failed otherwise, so one
failed file suffices); on the error path the status is set to failed
before the error propagates. -/
theorem create_status_iff_failures (s : UploaderState) (env : CreateEnv) :
    (∀ s1 e, FileUploader.create s env = (s1, .error e) →
       s1.status = UploadStatus.failed) ∧
    (∀ s1 info, FileUploader.create s env = (s1, .ok info) →
       (s1.status = UploadStatus.success ↔ info.result.failed = 0) ∧
       (info.result.failed ≠ 0 → s1.status = UploadStatus.failed)) := by
  constructor
  · intro s1 e h
    simp only [FileUploader.create] at h
    repeat' split at h
    all_goals simp only [Prod.mk.injEq] at h
    all_goals obtain ⟨h1, h2⟩ := h
    all_goals subst h1
    all_goals cases h2
    all_goals rfl
  · intro s1 info h
    simp only [FileUploader.create] at h
    repeat' split at h
    all_goals simp only [Prod.mk.injEq] at h
    all_goals obtain ⟨h1, h2⟩ := h
    all_goals subst h1
    all_goals cases h2
    all_goals constructor
    all_goals simp_all

/-- C5 witness: a clean pass ends success with zero failures; a failing
probe leaves the status failed as the error propagates. -/
theorem create_status_iff_failures_witness :
    ((exampleCreatedState.status = UploadStatus.success ↔
        exampleCreatedInfo.result.failed = 0) ∧
     (exampleCreatedInfo.result.failed ≠ 0 →
        exampleCreatedState.status = UploadStatus.failed)) ∧
    ({ examplePendingState with status := UploadStatus.failed } : UploaderState).status =
      UploadStatus.failed :=
  ⟨(create_status_iff_failures examplePendingState exampleEnvOk).2
      exampleCreatedState exampleCreatedInfo rfl,
   (create_status_iff_failures examplePendingState exampleEnvBadProbe).1
      { examplePendingState with status := UploadStatus.failed }
      (translateError "site-1"
        { message := "Request failed with status code 500", responseStatus := some 500 })
      rfl⟩

/-- C7: validateApiAccess returns true on a successful probe, raises a
distinct fresh error for each of 401, 403 and 404 (the three messages
are pairwise different for every site id), and propagates the original
error unmodified for any other status or for a failure carrying no
HTTP response. -/
theorem validateApiAccess_classification (siteId : String) (e : JsError) :
    validateApiAccess siteId (.ok ()) = .ok true ∧
    (e.responseStatus = some 401 →
       validateApiAccess siteId (.error e) =
         .error { message := "API Token无效或已过期" }) ∧
    (e.responseStatus = some 403 →
       validateApiAccess siteId (.error e) =
         .error { message := "API Token权限不足，需要website_hosting权限" }) ∧
    (e.responseStatus = some 404 →
       validateApiAccess siteId (.error e) =
         .error { message := "网站ID不存在: " ++ siteId }) ∧
    (∀ st, e.responseStatus = some st → st ≠ 401 → st ≠ 403 → st ≠ 404 →
       validateApiAccess siteId (.error e) = .error e) ∧
    (e.responseStatus = none → validateApiAccess siteId (.error e) = .error e) ∧
    ("API Token无效或已过期" : String) ≠ "API Token权限不足，需要website_hosting权限" ∧
    "网站ID不存在: " ++ siteId ≠ "API Token无效或已过期" ∧
    "网站ID不存在: " ++ siteId ≠ "API Token权限不足，需要website_hosting权限" := by
  refine ⟨rfl, ?_, ?_, ?_, ?_, ?_, by decide, ?_, ?_⟩
  · intro h; simp [validateApiAccess, h]
  · intro h; simp [validateApiAccess, h]
  · intro h; simp [validateApiAccess, h]
  · intro st h h1 h2 h3; simp [validateApiAccess, h, h1, h2, h3]
  · intro h; simp [validateApiAccess, h]
  · refine ne_of_front_ne ?_
    have hf : ("网站ID不存在: " ++ siteId).front = '网' := rfl
    rw [hf]; decide
  · refine ne_of_front_ne ?_
    have hf : ("网站ID不存在: " ++ siteId).front = '网' := rfl
    rw [hf]; decide

/-- C7 witness: 401 is refined, while a 500 and a response-less network
error pass through unmodified. -/
theorem validateApiAccess_classification_witness :
    validateApiAccess "site-1"
        (.error { message := "boom", responseStatus := some 401 }) =
      .error { message := "API Token无效或已过期" } ∧
    validateApiAccess "site-1"
        (.error { message := "boom", responseStatus := some 500 }) =
      .error { message := "boom", responseStatus := some 500 } ∧
    validateApiAccess "site-1" (.error { message := "netdown" }) =
      .error { message := "netdown" } := by
  refine ⟨?_, ?_, ?_⟩
  · exact (validateApiAccess_classification "site-1"
      { message := "boom", responseStatus := some 401 }).2.1 rfl
  · exact (validateApiAccess_classification "site-1"
      { message := "boom", responseStatus := some 500 }).2.2.2.2.1 500 rfl
      (by decide) (by decide) (by decide)
  · exact (validateApiAccess_classification "site-1"
      { message := "netdown", responseStatus := none }).2.2.2.2.2.1 rfl

/-- Helper: a successfully loaded context is exactly what
getRequiredVars produced. -/
theorem getContext_ok (A : ActionEnv) (ctx : ContextVars)
    (h : getContext A = .ok ctx) : getRequiredVars A = .ok ctx := by
  simp only [getContext] at h
  repeat' split at h
  all_goals simp_all

/-- C10: getContext fails closed with an error naming the missing field:
a missing required input fails inside getInput naming the input; each of
the three logging-only environment fields is checked generically and
the error names the record field; any record it returns has no
undefined field; and with inputs present, apiBaseUrl defaults to the
placeholder URL and sourceDir to ./dist. -/
theorem getContext_fail_closed (A : ActionEnv) :
    (∀ ctx, getContext A = .ok ctx →
       ctx.workflowRun ≠ none ∧ ctx.repositoryNwo ≠ none ∧ ctx.buildVersion ≠ none) ∧
    (A.inputs "api_token" = none →
       getContext A = .error "Input required and not supplied: api_token") ∧
    (∀ tok site, A.inputs "api_token" = some tok → tok ≠ "" →
       A.inputs "site_id" = some site → site ≠ "" →
       ((A.env "GITHUB_RUN_ID" = none →
           getContext A = .error "workflowRun is undefined. Cannot continue.") ∧
        (A.env "GITHUB_RUN_ID" ≠ none → A.env "GITHUB_REPOSITORY" = none →
           getContext A = .error "repositoryNwo is undefined. Cannot continue.") ∧
        (A.env "GITHUB_RUN_ID" ≠ none → A.env "GITHUB_REPOSITORY" ≠ none →
           A.env "GITHUB_SHA" = none →
           getContext A = .error "buildVersion is undefined. Cannot continue.") ∧
        (A.inputs "api_base_url" = none → A.inputs "source_dir" = none →
           ∀ ctx, getContext A = .ok ctx →
             ctx.apiBaseUrl = "https://api.example.com" ∧ ctx.sourceDir = "./dist"))) := by
  refine ⟨?_, ?_, ?_⟩
  · intro ctx h
    simp only [getContext] at h
    repeat' split at h
    all_goals simp_all
  · intro h
    simp [getContext, getRequiredVars, getInput, h]
  · intro tok site h1 h2 h3 h4
    refine ⟨?_, ?_, ?_, ?_⟩
    · intro hrun
      simp [getContext, getRequiredVars, getInput, h1, h2, h3, h4, hrun]
    · intro hrun hrepo
      simp [getContext, getRequiredVars, getInput, h1, h2, h3, h4, hrun, hrepo]
    · intro hrun hrepo hsha
      simp [getContext, getRequiredVars, getInput, h1, h2, h3, h4, hrun, hrepo, hsha]
    · intro hbu hsd ctx h
      have hr := getContext_ok A ctx h
      simp [getRequiredVars, getInput, h1, h2, h3, h4, hbu, hsd] at hr
      subst hr
      exact ⟨rfl, rfl⟩

/-- C10 witness: with both required inputs set and no optional inputs,
the defaults apply; with GITHUB_SHA missing, the loader fails naming
buildVersion. -/
theorem getContext_fail_closed_witness :
    (({ apiToken := "tok", siteId := "site-1",
        apiBaseUrl := "https://api.example.com", sourceDir := "./dist",
        targetPath := "/", timeout := 600000, maxRetries := 3,
        workflowRun := some "123", repositoryNwo := some "owner/repo",
        buildVersion := some "abc123" } : ContextVars).apiBaseUrl =
          "https://api.example.com" ∧
     ({ apiToken := "tok", siteId := "site-1",
        apiBaseUrl := "https://api.example.com", sourceDir := "./dist",
        targetPath := "/", timeout := 600000, maxRetries := 3,
        workflowRun := some "123", repositoryNwo := some "owner/repo",
        buildVersion := some "abc123" } : ContextVars).sourceDir = "./dist") ∧
    getContext exampleActionEnvNoSha =
      .error "buildVersion is undefined. Cannot continue." := by
  refine ⟨?_, ?_⟩
  · exact ((getContext_fail_closed exampleActionEnv).2.2 "tok" "site-1" rfl
      (by decide) rfl (by decide)).2.2.2 rfl rfl _ rfl
  · exact ((getContext_fail_closed exampleActionEnvNoSha).2.2 "tok" "site-1" rfl
      (by decide) rfl (by decide)).2.2.1 (by decide) (by decide) rfl

end DeployHLPages
